import Mathlib

/-!
Shallow embedding of `proxy_relay.py` (gaalos/Proxy-In-proxy).

The program is a chained TCP/TLS tunneling relay.  The components embedded
here are the ones the verified properties are about:

* the per-frame credential-injection step of the `relay` pump
  (`relayStep`, `pumpLoop`), including Python's `bytes.decode(errors='ignore')`
  lossy UTF-8 round trip (`decodeIgnore`, `encodeStr`) and the
  `base64`-encoded `Proxy-Authorization` header (`authHeaderOf`);
* the startup / watchdog probe `test_relay` (`testRelayTick`), with the
  outcome of every fallible I/O step supplied by a `ProbeEnv` oracle;
* the per-session tunnel establishment of `handle_client`
  (`buildTunnelSession`, `runSession`) over a `SessionEnv` oracle;
* the module-level startup sequence (`startupEvents`).

Bytes are `Nat` (0..255), Python `str` values are `List Char`.
-/

namespace ProxyRelay

/-- Characters of a Lean string literal, used to transcribe Python string
literals into the `List Char` representation of Python `str`. -/
def chars (s : String) : List Char := s.data

/-- Bytes 0x80..0xBF are UTF-8 continuation bytes. -/
def contB (b : Nat) : Bool := 128 ≤ b && b ≤ 191

/-- Valid range for the first continuation byte of a 3-byte sequence,
depending on the lead byte (excludes overlong forms and surrogates),
as in CPython's UTF-8 decoder. -/
def cont3ok (b b2 : Nat) : Bool :=
  if b = 224 then 160 ≤ b2 && b2 ≤ 191
  else if b = 237 then 128 ≤ b2 && b2 ≤ 159
  else contB b2

/-- Valid range for the first continuation byte of a 4-byte sequence,
depending on the lead byte (excludes overlong forms and values above
U+10FFFF), as in CPython's UTF-8 decoder. -/
def cont4ok (b b2 : Nat) : Bool :=
  if b = 240 then 144 ≤ b2 && b2 ≤ 191
  else if b = 244 then 128 ≤ b2 && b2 ≤ 143
  else contB b2

/-- Fueled UTF-8 decoder following CPython: returns the decoded characters
together with an error-free flag.  Ill-formed input drops the maximal
subpart of the offending sequence and clears the flag, which models both
`errors='ignore'` (keep the characters) and the default strict mode
(an exception iff the flag is cleared). -/
def decodeAux : Nat → List Nat → List Char × Bool
  | _, [] => ([], true)
  | 0, _ :: _ => ([], false)
  | fuel + 1, b :: rest =>
    if b < 128 then
      let p := decodeAux fuel rest
      (Char.ofNat b :: p.1, p.2)
    else if b < 194 then
      let p := decodeAux fuel rest
      (p.1, false)
    else if b < 224 then
      match rest with
      | [] => ([], false)
      | b2 :: rest2 =>
        if contB b2 then
          let p := decodeAux fuel rest2
          (Char.ofNat ((b - 192) * 64 + (b2 - 128)) :: p.1, p.2)
        else
          let p := decodeAux fuel rest
          (p.1, false)
    else if b < 240 then
      match rest with
      | [] => ([], false)
      | b2 :: rest2 =>
        if cont3ok b b2 then
          match rest2 with
          | [] => ([], false)
          | b3 :: rest3 =>
            if contB b3 then
              let p := decodeAux fuel rest3
              (Char.ofNat ((b - 224) * 4096 + (b2 - 128) * 64 + (b3 - 128)) :: p.1, p.2)
            else
              let p := decodeAux fuel rest2
              (p.1, false)
        else
          let p := decodeAux fuel rest
          (p.1, false)
    else if b < 245 then
      match rest with
      | [] => ([], false)
      | b2 :: rest2 =>
        if cont4ok b b2 then
          match rest2 with
          | [] => ([], false)
          | b3 :: rest3 =>
            if contB b3 then
              match rest3 with
              | [] => ([], false)
              | b4 :: rest4 =>
                if contB b4 then
                  let p := decodeAux fuel rest4
                  (Char.ofNat
                      ((b - 240) * 262144 + (b2 - 128) * 4096 +
                        (b3 - 128) * 64 + (b4 - 128)) :: p.1, p.2)
                else
                  let p := decodeAux fuel rest3
                  (p.1, false)
            else
              let p := decodeAux fuel rest2
              (p.1, false)
        else
          let p := decodeAux fuel rest
          (p.1, false)
    else
      let p := decodeAux fuel rest
      (p.1, false)

/-- UTF-8 decode of a byte list with an error flag; fuel is the length,
which each step strictly consumes. -/
def decodeUTF8 (bs : List Nat) : List Char × Bool := decodeAux bs.length bs

/-- Python `bytes.decode(errors='ignore')`: undecodable bytes are dropped. -/
def decodeIgnore (bs : List Nat) : List Char := (decodeUTF8 bs).1

/-- Python `bytes.decode()` (strict): `none` models the raised
`UnicodeDecodeError`. -/
def decodeStrict (bs : List Nat) : Option (List Char) :=
  let p := decodeUTF8 bs
  if p.2 then some p.1 else none

/-- UTF-8 encoding of one character. -/
def encodeChar (c : Char) : List Nat :=
  let n := c.toNat
  if n < 128 then [n]
  else if n < 2048 then [192 + n / 64, 128 + n % 64]
  else if n < 65536 then [224 + n / 4096, 128 + n / 64 % 64, 128 + n % 64]
  else [240 + n / 262144, 128 + n / 4096 % 64, 128 + n / 64 % 64, 128 + n % 64]

/-- Python `str.encode()`: UTF-8 encoding of a string. -/
def encodeStr : List Char → List Nat
  | [] => []
  | c :: cs => encodeChar c ++ encodeStr cs

/-- The base64 alphabet. -/
def b64chars : List Char :=
  chars "ABCDEFGHIJKLMNOPQRSTUVWXYZabcdefghijklmnopqrstuvwxyz0123456789+/"

/-- One base64 digit. -/
def b64digit (n : Nat) : Char := b64chars.getD n 'A'

/-- Python `base64.b64encode` on a byte list (result as characters). -/
def b64encode : List Nat → List Char
  | [] => []
  | [a] => [b64digit (a / 4), b64digit (a % 4 * 16), '=', '=']
  | [a, b] => [b64digit (a / 4), b64digit (a % 4 * 16 + b / 16), b64digit (b % 16 * 4), '=']
  | a :: b :: c :: rest =>
    b64digit (a / 4) :: b64digit (a % 4 * 16 + b / 16) ::
      b64digit (b % 16 * 4 + c / 64) :: b64digit (c % 64) :: b64encode rest

/-- Scanner behind `splitOnce`: `acc` holds the already-scanned characters
in reverse. -/
def splitOnceAux (sep : List Char) (acc : List Char) : List Char → Option (List Char × List Char)
  | [] => none
  | c :: cs =>
    if List.isPrefixOf sep (c :: cs) then
      some (acc.reverse, List.drop sep.length (c :: cs))
    else
      splitOnceAux sep (c :: acc) cs

/-- Python `s.split(sep, 1)` when `sep` occurs: the parts before and after
the first occurrence of `sep`; `none` when `sep` does not occur. -/
def splitOnce (sep s : List Char) : Option (List Char × List Char) :=
  splitOnceAux sep [] s

/-- Python `sep in s` for a nonempty separator. -/
def containsSub (sep s : List Char) : Bool := (splitOnce sep s).isSome

/-- The HTTP header/body separator `"\r\n\r\n"`. -/
def crlf2 : List Char := chars "\r\n\r\n"

example : decodeIgnore (encodeStr (chars "GET / HTTP/1.1\r\n")) = chars "GET / HTTP/1.1\r\n" := by decide

example : decodeIgnore [71, 255, 84] = chars "GT" := by decide

example : decodeStrict [71, 255, 84] = none := by decide

example : decodeStrict [72, 84, 84, 80] = some (chars "HTTP") := by decide

example : b64encode (encodeStr (chars "u:p")) = chars "dTpw" := by decide

example : splitOnce crlf2 (chars "GET / HTTP/1.1\r\nHost: x\r\n\r\n")
    = some (chars "GET / HTTP/1.1\r\nHost: x", []) := by decide

example : containsSub crlf2 (chars "GET / HT") = false := by decide

example : containsSub (chars "200") (chars "HTTP/1.1 2") = false := by decide

/-- The `Proxy-Authorization` header line precomputed in `handle_client`
(lines 142-146): present exactly when both `RELAY_USER` and `RELAY_PASS`
are given and truthy (non-empty), with a trailing `"\r\n"`. -/
def authHeaderOf : Option (List Char) → Option (List Char) → Option (List Char)
  | some u, some p =>
    if u.isEmpty || p.isEmpty then none
    else
      some (chars "Proxy-Authorization: Basic "
        ++ b64encode (encodeStr (u ++ chars ":" ++ p)) ++ chars "\r\n")
  | _, _ => none

/-- The two pump directions of `handle_client`. -/
inductive Direction where
  | clientToRelay
  | relayToClient
deriving DecidableEq

/-- One iteration of the `relay` loop body on a received chunk
(lines 155-162): when the credential is still pending and the direction is
client-to-relay, the chunk is decoded with `errors='ignore'`; if the decoded
text contains `"\r\n\r\n"`, the text is split at its first occurrence, the
header block gets `"\r\n"` plus the credential line appended, the separator
and remainder are re-appended, the result is re-encoded and the credential
is cleared.  Otherwise the chunk passes unchanged and the credential state
is kept. -/
def relayStep (dir : Direction) (auth : Option (List Char)) (data : List Nat) :
    List Nat × Option (List Char) :=
  match auth, dir with
  | some a, .clientToRelay =>
    match splitOnce crlf2 (decodeIgnore data) with
    | some (hdrs, rest) =>
      (encodeStr (hdrs ++ chars "\r\n" ++ a ++ crlf2 ++ rest), none)
    | none => (data, some a)
  | _, _ => (data, auth)

/-- The `relay` pump of `handle_client` (lines 148-167) on the sequence of
nonempty chunks read from `src`: each chunk goes through `relayStep` and is
then sent to `dst`; the credential state threads through the loop. -/
def pumpLoop (dir : Direction) : Option (List Char) → List (List Nat) → List (List Nat)
  | _, [] => []
  | auth, d :: ds =>
    let p := relayStep dir auth d
    p.1 :: pumpLoop dir p.2 ds

/-- Number of positions at which two chunk sequences differ. -/
def modCount : List (List Nat) → List (List Nat) → Nat
  | a :: as, b :: bs => (if a = b then 0 else 1) + modCount as bs
  | _, _ => 0

lemma relayStep_auth_none (dir : Direction) (d : List Nat) :
    relayStep dir none d = (d, none) := by
  cases dir <;> rfl

lemma relayStep_no_sep (dir : Direction) (a : List Char) (d : List Nat)
    (h : splitOnce crlf2 (decodeIgnore d) = none) :
    relayStep dir (some a) d = (d, some a) := by
  cases dir <;> simp [relayStep, h]

lemma pumpLoop_auth_none (dir : Direction) (ds : List (List Nat)) :
    pumpLoop dir none ds = ds := by
  induction ds with
  | nil => rfl
  | cons d ds ih => simp [pumpLoop, relayStep_auth_none, ih]

lemma modCount_self (ds : List (List Nat)) : modCount ds ds = 0 := by
  induction ds with
  | nil => rfl
  | cons d ds ih => simp [modCount, ih]

lemma pumpLoop_modCount_le_one (auth : Option (List Char)) (ds : List (List Nat)) :
    modCount ds (pumpLoop Direction.clientToRelay auth ds) ≤ 1 := by
  induction ds generalizing auth with
  | nil => simp [pumpLoop, modCount]
  | cons d ds ih =>
    cases auth with
    | none =>
      rw [pumpLoop_auth_none, modCount_self]
      exact Nat.zero_le 1
    | some a =>
      rcases h : splitOnce crlf2 (decodeIgnore d) with _ | pr
      · rw [show pumpLoop Direction.clientToRelay (some a) (d :: ds)
              = d :: pumpLoop Direction.clientToRelay (some a) ds by
            simp [pumpLoop, relayStep_no_sep _ _ _ h]]
        simpa [modCount] using ih (some a)
      · obtain ⟨hd, rest⟩ := pr
        rw [show pumpLoop Direction.clientToRelay (some a) (d :: ds)
              = encodeStr (hd ++ chars "\r\n" ++ a ++ crlf2 ++ rest)
                  :: pumpLoop Direction.clientToRelay none ds by
            simp [pumpLoop, relayStep, h]]
        rw [pumpLoop_auth_none]
        simp only [modCount, modCount_self]
        split <;> simp

/-- C1: evaluating the relay pump at the spec's concrete scenario — configured
user `u` / pass `p`, first client frame `"GET / HTTP/1.1\r\nHost: x\r\n\r\n"` —
the bytes forwarded to the relay are NOT the claimed
`"GET / HTTP/1.1\r\nHost: x\r\nProxy-Authorization: Basic dTpw\r\n\r\n"`:
the credential line already carries a trailing `"\r\n"` and the full
separator is appended after it, so one extra CRLF pair is inserted. -/
theorem c1_auth_splice_extra_crlf :
    pumpLoop Direction.clientToRelay (authHeaderOf (some (chars "u")) (some (chars "p")))
        [encodeStr (chars "GET / HTTP/1.1\r\nHost: x\r\n\r\n")]
      = [encodeStr
          (chars "GET / HTTP/1.1\r\nHost: x\r\nProxy-Authorization: Basic dTpw\r\n\r\n\r\n")]
    ∧ encodeStr (chars "GET / HTTP/1.1\r\nHost: x\r\nProxy-Authorization: Basic dTpw\r\n\r\n\r\n")
      ≠ encodeStr (chars "GET / HTTP/1.1\r\nHost: x\r\nProxy-Authorization: Basic dTpw\r\n\r\n") :=
  ⟨by decide, by decide⟩

/-- C2 counterexample: with credentials configured and a first client frame
`"AB"` that lacks the header/body separator, the frame is forwarded
unmodified but the credential is NOT consumed — the second frame
`"GET / HTTP/1.1\r\n\r\n"` is modified, contradicting the claim that no
later frame of the session is ever modified. -/
theorem c2_later_frame_injected :
    (pumpLoop Direction.clientToRelay (authHeaderOf (some (chars "u")) (some (chars "p")))
        [encodeStr (chars "AB"), encodeStr (chars "GET / HTTP/1.1\r\n\r\n")]).getD 0 []
      = encodeStr (chars "AB")
    ∧ (pumpLoop Direction.clientToRelay (authHeaderOf (some (chars "u")) (some (chars "p")))
        [encodeStr (chars "AB"), encodeStr (chars "GET / HTTP/1.1\r\n\r\n")]).getD 1 []
      ≠ encodeStr (chars "GET / HTTP/1.1\r\n\r\n") :=
  ⟨by decide, by decide⟩

/-- C2 amended: if the separator is absent from a frame, that frame is
forwarded unmodified and the credential remains pending (it is not
consumed); across any session, the client-to-relay pump modifies at most
one frame — the first whose lossily decoded text contains the separator. -/
theorem c2_injection_at_most_once :
    (∀ (a : List Char) (d : List Nat) (ds : List (List Nat)),
        containsSub crlf2 (decodeIgnore d) = false →
          pumpLoop Direction.clientToRelay (some a) (d :: ds)
            = d :: pumpLoop Direction.clientToRelay (some a) ds)
    ∧ ∀ (auth : Option (List Char)) (ds : List (List Nat)),
        modCount ds (pumpLoop Direction.clientToRelay auth ds) ≤ 1 := by
  constructor
  · intro a d ds h
    have hn : splitOnce crlf2 (decodeIgnore d) = none := by
      rcases hx : splitOnce crlf2 (decodeIgnore d) with _ | v
      · rfl
      · rw [containsSub, hx] at h
        simp at h
    simp [pumpLoop, relayStep_no_sep _ _ _ hn]
  · exact pumpLoop_modCount_le_one

/-- Witness for C2 amended at a concrete separator-free frame. -/
theorem c2_injection_at_most_once_witness :
    pumpLoop Direction.clientToRelay (some (chars "X")) [encodeStr (chars "AB")]
        = encodeStr (chars "AB") :: pumpLoop Direction.clientToRelay (some (chars "X")) []
    ∧ modCount [encodeStr (chars "AB")]
        (pumpLoop Direction.clientToRelay (some (chars "X")) [encodeStr (chars "AB")]) ≤ 1 :=
  ⟨c2_injection_at_most_once.1 (chars "X") (encodeStr (chars "AB")) [] (by decide),
   c2_injection_at_most_once.2 (some (chars "X")) [encodeStr (chars "AB")]⟩

/-- C6: when no username/password pair is configured, the pump is the
identity on the chunk sequence in both directions — the forwarded byte
stream is byte-identical to the stream read, in order, with no injection
or transformation. -/
theorem c6_no_creds_identity :
    ∀ (u p : Option (List Char)), u = none ∨ p = none →
      ∀ (dir : Direction) (ds : List (List Nat)),
        pumpLoop dir (authHeaderOf u p) ds = ds := by
  intro u p h dir ds
  have hnone : authHeaderOf u p = none := by
    rcases h with h | h <;> subst h
    · cases p <;> rfl
    · cases u <;> rfl
  rw [hnone, pumpLoop_auth_none]

/-- Witness for C6 at a concrete credential-free session. -/
theorem c6_no_creds_identity_witness :
    pumpLoop Direction.clientToRelay (authHeaderOf none (some (chars "p")))
      [encodeStr (chars "hello")] = [encodeStr (chars "hello")] :=
  c6_no_creds_identity none (some (chars "p")) (Or.inl rfl) Direction.clientToRelay _

/-- C10: when the credential is pending and the decoded frame contains the
separator, the forwarded bytes are the UTF-8 re-encoding of the lossy
(`errors='ignore'`) decoding of the frame with the credential line spliced
in; in particular a frame ending in the invalid byte 255 (a binary byte
after the header block) loses that byte — it is not forwarded verbatim. -/
theorem c10_lossy_decode_reencode :
    (∀ (a : List Char) (d : List Nat) (pr : List Char × List Char),
        splitOnce crlf2 (decodeIgnore d) = some pr →
          relayStep Direction.clientToRelay (some a) d
            = (encodeStr (pr.1 ++ chars "\r\n" ++ a ++ crlf2 ++ pr.2), none))
    ∧ 255 ∈ encodeStr (chars "GET / HTTP/1.1\r\n\r\n") ++ [255]
    ∧ 255 ∉ (relayStep Direction.clientToRelay
          (some (chars "Proxy-Authorization: Basic dTpw\r\n"))
          (encodeStr (chars "GET / HTTP/1.1\r\n\r\n") ++ [255])).1 := by
  refine ⟨?_, by decide, by decide⟩
  intro a d pr h
  obtain ⟨h1, h2⟩ := pr
  simp [relayStep, h]

/-- Witness for C10 at a concrete frame containing the separator. -/
theorem c10_lossy_decode_reencode_witness :
    relayStep Direction.clientToRelay (some (chars "A\r\n")) (encodeStr (chars "x\r\n\r\ny"))
      = (encodeStr ((chars "x", chars "y").1 ++ chars "\r\n" ++ chars "A\r\n"
          ++ crlf2 ++ (chars "x", chars "y").2), none) :=
  c10_lossy_decode_reencode.1 (chars "A\r\n") (encodeStr (chars "x\r\n\r\ny"))
    (chars "x", chars "y") (by decide)

/-- Startup configuration of the process: the system-proxy discovery result
(`SYS_PROXY_HOST` truthy or not), `USE_TLS`, and the relay target with the
optional credentials, all immutable after startup. -/
structure Config where
  sysProxy : Bool
  useTLS : Bool
  relayHost : List Char
  relayPort : Nat
  relayUser : Option (List Char)
  relayPass : Option (List Char)
deriving DecidableEq

/-- Oracle for the fallible I/O steps of one `test_relay` call: whether each
socket operation succeeds (`false` models a raised exception) and the bytes
each `recv` returns. -/
structure ProbeEnv where
  connectOk : Bool
  connectSendOk : Bool
  connectRespBytes : List Nat
  tlsOk : Bool
  probeSendOk : Bool
  probeRecvOk : Bool
  probeRespBytes : List Nat
deriving DecidableEq

/-- Observable outcome of one `test_relay` call: whether a transport was
opened, whether it was closed before returning, and the returned
healthy/unhealthy classification. -/
structure TickResult where
  opened : Bool
  closed : Bool
  healthy : Bool
deriving DecidableEq

/-- The CONNECT-response acceptance check of `test_relay` (lines 73-76): the
single received chunk is decoded strictly (a decode error raises, caught as
failure) and accepted iff it contains the substring `"200"`. -/
def connectChunkAccepted (bs : List Nat) : Bool :=
  match decodeStrict bs with
  | none => false
  | some r => containsSub (chars "200") r

/-- The probe exchange of `test_relay` (lines 87-99): send the fixed GET,
receive one chunk with `errors='ignore'`, close the socket, then classify
healthy iff the substring `"HTTP"` occurs in the response. -/
def probePhase (env : ProbeEnv) : TickResult :=
  if env.probeSendOk then
    if env.probeRecvOk then
      ⟨true, true, containsSub (chars "HTTP") (decodeIgnore env.probeRespBytes)⟩
    else ⟨true, false, false⟩
  else ⟨true, false, false⟩

/-- One `test_relay` call (lines 55-103).  Connect to the system proxy or
the relay; when a system proxy is present and TLS is requested, send
CONNECT, check the single response chunk for `"200"` (returning unhealthy
without closing when absent), then wrap TLS; with TLS and no system proxy
wrap directly; finally run the probe exchange.  Any raised exception is
caught by the outer handler, which returns unhealthy without closing. -/
def testRelayTick (cfg : Config) (env : ProbeEnv) : TickResult :=
  if env.connectOk then
    if cfg.sysProxy && cfg.useTLS then
      if env.connectSendOk then
        if connectChunkAccepted env.connectRespBytes then
          if env.tlsOk then probePhase env else ⟨true, false, false⟩
        else ⟨true, false, false⟩
      else ⟨true, false, false⟩
    else if cfg.useTLS then
      if env.tlsOk then probePhase env else ⟨true, false, false⟩
    else probePhase env
  else ⟨false, false, false⟩

/-- Summary of the tunnel-setup phase of `test_relay`: all steps before the
probe exchange succeed. -/
def tunnelPhaseOk (cfg : Config) (env : ProbeEnv) : Bool :=
  env.connectOk &&
    (if cfg.sysProxy && cfg.useTLS then
      env.connectSendOk && connectChunkAccepted env.connectRespBytes && env.tlsOk
    else if cfg.useTLS then env.tlsOk
    else true)

/-- One `relay_watchdog` iteration (lines 195-199): run `test_relay` and log
a warning exactly when it reports failure.  Result: (healthy, logged). -/
def watchdogTick (cfg : Config) (env : ProbeEnv) : Bool × Bool :=
  let h := (testRelayTick cfg env).healthy
  (h, !h)

/-- Events of the module-level startup sequence. -/
inductive StartupEvent where
  | selfTest (ok : Bool)
  | exitProcess (code : Nat)
  | bindPort
  | listen
  | acceptLoop
deriving DecidableEq

/-- The module-level startup sequence (lines 105-107 and 186-209): run the
`test_relay` self-test; on failure print and `sys.exit(1)`; on success bind
the listener, listen, and enter the accept loop. -/
def startupEvents (cfg : Config) (env : ProbeEnv) : List StartupEvent :=
  if (testRelayTick cfg env).healthy then
    [.selfTest true, .bindPort, .listen, .acceptLoop]
  else
    [.selfTest false, .exitProcess 1]

/-- Oracle for the fallible I/O steps of `handle_client`'s tunnel setup
(lines 113-137): connect, CONNECT send, CONNECT recv, TLS handshake, plus
the bytes the CONNECT recv returns. -/
structure SessionEnv where
  connectOk : Bool
  connectSendOk : Bool
  connectRecvOk : Bool
  connectResp : List Nat
  tlsOk : Bool
deriving DecidableEq

/-- Outcome of the tunnel setup in `handle_client`: `ok`, or the step whose
raised exception aborts the session. -/
inductive TunnelOutcome where
  | ok
  | connectFailed
  | tlsFailed
deriving DecidableEq

/-- Result of `handle_client`'s tunnel setup: the outcome plus the CONNECT
request sent to the upstream proxy, when one was sent. -/
structure SessionTunnel where
  outcome : TunnelOutcome
  sentConnect : Option (List Char)
deriving DecidableEq

/-- The CONNECT request built in `handle_client` (lines 122-127): request
line and `Host` for the relay host:port, `Connection: close`, the optional
`Proxy-Authorization` line, and the final blank line. -/
def mkConnectReq (cfg : Config) : List Char :=
  chars "CONNECT " ++ cfg.relayHost ++ chars ":" ++ (Nat.repr cfg.relayPort).data
    ++ chars " HTTP/1.1\r\nHost: " ++ cfg.relayHost ++ chars ":" ++ (Nat.repr cfg.relayPort).data
    ++ chars "\r\nConnection: close\r\n"
    ++ (match authHeaderOf cfg.relayUser cfg.relayPass with
        | some a => a
        | none => [])
    ++ chars "\r\n"

/-- Tunnel setup of `handle_client` (lines 113-137): connect to the system
proxy or the relay; when a system proxy is present and TLS is requested,
send CONNECT and receive one response chunk — which is only debug-printed,
never examined — then wrap TLS; with TLS and no system proxy wrap directly;
otherwise use the raw connection.  Each raised exception aborts setup. -/
def buildTunnelSession (cfg : Config) (env : SessionEnv) : SessionTunnel :=
  if env.connectOk then
    if cfg.sysProxy && cfg.useTLS then
      if env.connectSendOk then
        if env.connectRecvOk then
          if env.tlsOk then ⟨.ok, some (mkConnectReq cfg)⟩
          else ⟨.tlsFailed, some (mkConnectReq cfg)⟩
        else ⟨.connectFailed, some (mkConnectReq cfg)⟩
      else ⟨.connectFailed, some (mkConnectReq cfg)⟩
    else if cfg.useTLS then
      if env.tlsOk then ⟨.ok, none⟩ else ⟨.tlsFailed, none⟩
    else ⟨.ok, none⟩
  else ⟨.connectFailed, none⟩

/-- Observable result of one `handle_client` session: chunk sequences
forwarded in each direction and whether each transport was closed. -/
structure SessionRun where
  toRelay : List (List Nat)
  toClient : List (List Nat)
  clientClosed : Bool
  serverClosed : Bool
deriving DecidableEq

/-- One `handle_client` session (lines 112-181): on successful tunnel setup
the two pumps forward the chunk sequences (credential injection only on the
client-to-relay side) and both sockets are closed; on a setup exception the
handler forwards nothing and closes both sockets. -/
def runSession (cfg : Config) (env : SessionEnv)
    (clientChunks relayChunks : List (List Nat)) : SessionRun :=
  match (buildTunnelSession cfg env).outcome with
  | .ok =>
    ⟨pumpLoop .clientToRelay (authHeaderOf cfg.relayUser cfg.relayPass) clientChunks,
     pumpLoop .relayToClient (authHeaderOf cfg.relayUser cfg.relayPass) relayChunks,
     true, true⟩
  | _ => ⟨[], [], true, true⟩

/-- Modelled from the spec: `buildTunnel` step 2 — read from the socket
accumulating bytes until the byte sequence `"\r\n\r\n"` is observed or the
peer closes (the chunk list ends). -/
def specConnectAccum (acc : List Char) : List (List Char) → List Char
  | [] => acc
  | c :: cs =>
    if containsSub crlf2 (acc ++ c) then acc ++ c else specConnectAccum (acc ++ c) cs

/-- Modelled from the spec: CONNECT success — the terminator was seen and
the accumulated response contains the token `"200"`; a peer close before
the terminator, or any other status, is a hard failure. -/
def specConnectSucceeds (chunkList : List (List Char)) : Bool :=
  let resp := specConnectAccum [] chunkList
  containsSub crlf2 resp && containsSub (chars "200") resp

/-- Decimal digit test on a character. -/
def isDigitCh (c : Char) : Bool := 48 ≤ c.toNat && c.toNat ≤ 57

/-- Modelled from the spec: a 3-digit HTTP status-line token, approximated
as three consecutive decimal digits occurring in the response. -/
def hasThreeDigitToken : List Char → Bool
  | a :: b :: c :: rest =>
    (isDigitCh a && isDigitCh b && isDigitCh c) || hasThreeDigitToken (b :: c :: rest)
  | _ => false

/-- An example relay host for concrete scenarios. -/
def hostEx : List Char := chars "relay.example.com"

/-- Configuration with a system proxy and TLS to the relay. -/
def cfgSysTls : Config := ⟨true, true, hostEx, 443, some (chars "u"), some (chars "p")⟩

/-- Configuration with a system proxy and no TLS. -/
def cfgSysPlain : Config := ⟨true, false, hostEx, 8080, none, none⟩

/-- Configuration with no system proxy and no TLS. -/
def cfgDirect : Config := ⟨false, false, hostEx, 8080, none, none⟩

/-- Probe oracle: the single CONNECT `recv` returns only the first half of a
success response split across reads. -/
def envSplitResp : ProbeEnv :=
  ⟨true, true, encodeStr (chars "HTTP/1.1 2"), true, true, true,
   encodeStr (chars "HTTP/1.1 200 OK\r\n\r\n")⟩

/-- Probe oracle: probe response carrying a 3-digit status token but not the
substring `"HTTP"`. -/
def envDigitsNoHTTP : ProbeEnv :=
  ⟨true, true, [], true, true, true, encodeStr (chars "abc 200 def")⟩

/-- Probe oracle: probe response carrying the substring `"HTTP"` and no
digits at all. -/
def envHTTPNoDigits : ProbeEnv :=
  ⟨true, true, [], true, true, true, encodeStr (chars "HTTPX")⟩

/-- Probe oracle: upstream proxy rejects the CONNECT with a 407. -/
def envConnectRejected : ProbeEnv :=
  ⟨true, true, encodeStr (chars "HTTP/1.1 407 Proxy Authentication Required\r\n\r\n"),
   true, true, true, encodeStr (chars "HTTP/1.1 200 OK")⟩

/-- Probe oracle: CONNECT accepted but the TLS handshake raises. -/
def envTlsFails : ProbeEnv :=
  ⟨true, true, encodeStr (chars "HTTP/1.1 200 Connection established\r\n\r\n"),
   false, true, true, []⟩

/-- Probe oracle: the initial TCP connect raises. -/
def envConnectDown : ProbeEnv := ⟨false, true, [], true, true, true, []⟩

/-- Session oracle: upstream proxy replies 407 to CONNECT; every socket
operation succeeds. -/
def envS407 : SessionEnv :=
  ⟨true, true, true, encodeStr (chars "HTTP/1.1 407 Proxy Authentication Required\r\n\r\n"), true⟩

/-- Session oracle: upstream proxy replies 407 to CONNECT and the TLS
handshake over the non-established tunnel raises. -/
def envS407tls : SessionEnv :=
  ⟨true, true, true, encodeStr (chars "HTTP/1.1 407 Proxy Authentication Required\r\n\r\n"), false⟩

/-- Session oracle: upstream proxy accepts the CONNECT. -/
def envS200 : SessionEnv :=
  ⟨true, true, true, encodeStr (chars "HTTP/1.1 200 Connection established\r\n\r\n"), true⟩

/-- Session oracle: all socket operations succeed, empty CONNECT response. -/
def envSOk : SessionEnv := ⟨true, true, true, [], true⟩

/-- First half of a split CONNECT success response. -/
def chunkA : List Char := chars "HTTP/1.1 2"

/-- Second half of a split CONNECT success response. -/
def chunkB : List Char := chars "00 Connection established\r\n\r\n"

/-- C3 counterexample: a CONNECT success response split across two reads
contains the token `"200"` before the terminator, so per the claim tunnel
establishment must succeed — but `test_relay` reads a single chunk without
accumulating until `"\r\n\r\n"` and fails (and leaves the socket open). -/
theorem c3_split_response_rejected :
    specConnectSucceeds [chunkA, chunkB] = true
    ∧ testRelayTick cfgSysTls envSplitResp = ⟨true, false, false⟩ :=
  ⟨by decide, by decide⟩

/-- C3 amended: the CONNECT response is read in a single `recv` with no
accumulation — `test_relay` fails whenever that one chunk is not accepted
(strictly decodable and containing `"200"`), and `handle_client` never
examines its CONNECT response chunk at all: its tunnel setup result is
independent of the received bytes. -/
theorem c3_single_read_check :
    (∀ (cfg : Config) (env : ProbeEnv),
        cfg.sysProxy = true → cfg.useTLS = true →
        connectChunkAccepted env.connectRespBytes = false →
          (testRelayTick cfg env).healthy = false ∧ (testRelayTick cfg env).closed = false)
    ∧ ∀ (cfg : Config) (env : SessionEnv) (r : List Nat),
        buildTunnelSession cfg { env with connectResp := r } = buildTunnelSession cfg env := by
  constructor
  · intro cfg env h1 h2 h3
    simp only [testRelayTick, h1, h2, h3, Bool.and_self, if_true, if_false, Bool.false_eq_true]
    split_ifs <;> simp_all
  · intro cfg env r
    cases env
    rfl

/-- Witness for C3 amended: the split first chunk is rejected by the
single-read check, and replacing the 407 CONNECT response by an empty one
does not change the session's tunnel setup. -/
theorem c3_single_read_check_witness :
    ((testRelayTick cfgSysTls envSplitResp).healthy = false
      ∧ (testRelayTick cfgSysTls envSplitResp).closed = false)
    ∧ buildTunnelSession cfgSysTls { envS407 with connectResp := [] }
        = buildTunnelSession cfgSysTls envS407 :=
  ⟨c3_single_read_check.1 cfgSysTls envSplitResp rfl rfl (by decide),
   c3_single_read_check.2 cfgSysTls envS407 []⟩

/-- C4 counterexample: with an upstream proxy configured but TLS to the
relay disabled, `handle_client` establishes the tunnel without ever sending
a CONNECT request — the connection is used as a plain pass-through to the
upstream proxy, contradicting the claim. -/
theorem c4_no_connect_without_tls :
    cfgSysPlain.sysProxy = true
    ∧ buildTunnelSession cfgSysPlain envSOk = ⟨.ok, none⟩ :=
  ⟨rfl, rfl⟩

/-- C4 amended: `handle_client` sends the CONNECT request (for the relay
host:port) if and only if a system proxy is present AND TLS to the relay is
requested AND the initial connect succeeded; otherwise — in particular with
an upstream proxy and TLS off — no CONNECT is sent. -/
theorem c4_connect_sent_iff (cfg : Config) (env : SessionEnv) :
    (buildTunnelSession cfg env).sentConnect
      = if env.connectOk && (cfg.sysProxy && cfg.useTLS) then some (mkConnectReq cfg)
        else none := by
  simp only [buildTunnelSession]
  split_ifs <;> simp_all

/-- C5 counterexample: on the upstream proxy's
`"HTTP/1.1 407 Proxy Authentication Required\r\n\r\n"` reply,
`handle_client`'s tunnel setup does not fail — it proceeds (outcome `ok`
when the subsequent handshake succeeds), and its result is identical to the
one for a 200 reply, because the CONNECT response is never examined. -/
theorem c5_reply_407_proceeds :
    (buildTunnelSession cfgSysTls envS407).outcome = TunnelOutcome.ok
    ∧ buildTunnelSession cfgSysTls envS407 = buildTunnelSession cfgSysTls envS200 :=
  ⟨rfl, rfl⟩

/-- C5 amended: `handle_client` ignores the CONNECT reply; after a complete
CONNECT exchange the setup outcome depends only on the TLS handshake, and
when that handshake fails the session forwards no bytes in either direction
and closes both sockets. -/
theorem c5_tunnel_ignores_connect_reply :
    ∀ (cfg : Config) (env : SessionEnv) (cf rf : List (List Nat)),
      cfg.sysProxy = true → cfg.useTLS = true →
      env.connectOk = true → env.connectSendOk = true → env.connectRecvOk = true →
      (buildTunnelSession cfg env).outcome
          = (if env.tlsOk then TunnelOutcome.ok else TunnelOutcome.tlsFailed)
      ∧ (env.tlsOk = false → runSession cfg env cf rf = ⟨[], [], true, true⟩) := by
  intro cfg env cf rf h1 h2 h3 h4 h5
  refine ⟨?_, ?_⟩
  · cases htls : env.tlsOk <;> simp [buildTunnelSession, h1, h2, h3, h4, h5, htls]
  · intro h6
    simp [runSession, buildTunnelSession, h1, h2, h3, h4, h5, h6]

/-- Witness for C5 amended: the 407 scenario with the failing handshake
forwards nothing and closes both sockets. -/
theorem c5_tunnel_ignores_connect_reply_witness :
    runSession cfgSysTls envS407tls [] [] = ⟨[], [], true, true⟩ :=
  (c5_tunnel_ignores_connect_reply cfgSysTls envS407tls [] [] rfl rfl rfl rfl rfl).2 rfl

/-- C7 counterexample: the watchdog classification is the substring test
`"HTTP" in response`, not the presence of a 3-digit status token — a
response with a 3-digit token but no `"HTTP"` is classified unhealthy, and
a response with `"HTTP"` and no digit is classified healthy. -/
theorem c7_http_substring_vs_digits :
    hasThreeDigitToken (chars "abc 200 def") = true
    ∧ (testRelayTick cfgDirect envDigitsNoHTTP).healthy = false
    ∧ hasThreeDigitToken (chars "HTTPX") = false
    ∧ (testRelayTick cfgDirect envHTTPNoDigits).healthy = true := by
  refine ⟨by decide, by decide, by decide, by decide⟩

/-- C7 amended: a tick is classified healthy iff it completed the probe
exchange (equivalently, closed its socket) and the single probe response
chunk contains the substring `"HTTP"`; otherwise — including on any raised
exception — it is unhealthy, and the watchdog logs exactly on unhealthy
ticks. -/
theorem c7_healthy_iff_http_substring (cfg : Config) (env : ProbeEnv) :
    ((testRelayTick cfg env).healthy = true ↔
      (testRelayTick cfg env).closed = true
        ∧ containsSub (chars "HTTP") (decodeIgnore env.probeRespBytes) = true)
    ∧ (watchdogTick cfg env).2 = !(testRelayTick cfg env).healthy := by
  refine ⟨?_, rfl⟩
  simp only [testRelayTick, probePhase]
  split_ifs <;> simp_all

/-- C8 counterexample: two ticks that open the probe transport and return
without closing it — one where the upstream proxy rejects the CONNECT
(unhealthy classification) and one where the TLS handshake raises — so the
transport is not closed regardless of outcome. -/
theorem c8_unclosed_on_failure :
    testRelayTick cfgSysTls envConnectRejected = ⟨true, false, false⟩
    ∧ testRelayTick cfgSysTls envTlsFails = ⟨true, false, false⟩ :=
  ⟨by decide, by decide⟩

/-- C8 amended: `test_relay` closes its probe transport exactly on the ticks
that reach the probe receive — i.e. when the whole tunnel phase and the
probe send/receive succeed; on the CONNECT-rejection return and on any
exception after the connect, the opened transport is left unclosed. -/
theorem c8_closed_iff_probe_completed (cfg : Config) (env : ProbeEnv) :
    (testRelayTick cfg env).closed
      = (tunnelPhaseOk cfg env && env.probeSendOk && env.probeRecvOk) := by
  simp only [testRelayTick, tunnelPhaseOk, probePhase]
  split_ifs <;> simp_all

/-- C9: the process exits with the non-zero status 1 when the startup
self-test fails, before the listener is bound and before any client is
accepted; when the self-test succeeds it binds, listens, and enters the
accept loop with no exit. -/
theorem c9_failfast_before_bind :
    ∀ (cfg : Config) (env : ProbeEnv),
      ((testRelayTick cfg env).healthy = false →
          startupEvents cfg env = [.selfTest false, .exitProcess 1]
          ∧ StartupEvent.bindPort ∉ startupEvents cfg env
          ∧ StartupEvent.acceptLoop ∉ startupEvents cfg env
          ∧ ∀ c, StartupEvent.exitProcess c ∈ startupEvents cfg env → c ≠ 0)
      ∧ ((testRelayTick cfg env).healthy = true →
          startupEvents cfg env = [.selfTest true, .bindPort, .listen, .acceptLoop]
          ∧ ∀ c, StartupEvent.exitProcess c ∉ startupEvents cfg env) := by
  intro cfg env
  constructor
  · intro h
    refine ⟨by simp [startupEvents, h], by simp [startupEvents, h],
            by simp [startupEvents, h], ?_⟩
    intro c hc
    simp [startupEvents, h] at hc
    omega
  · intro h
    refine ⟨by simp [startupEvents, h], ?_⟩
    intro c hc
    simp [startupEvents, h] at hc

/-- Witness for C9: a tick whose connect fails aborts startup before the
bind, and a healthy tick leads to the bind. -/
theorem c9_failfast_before_bind_witness :
    startupEvents cfgDirect envConnectDown
        = [StartupEvent.selfTest false, StartupEvent.exitProcess 1]
    ∧ StartupEvent.bindPort ∈ startupEvents cfgDirect envHTTPNoDigits :=
  ⟨((c9_failfast_before_bind cfgDirect envConnectDown).1 (by decide)).1,
   by
    have h := ((c9_failfast_before_bind cfgDirect envHTTPNoDigits).2 (by decide)).1
    rw [h]
    decide⟩

end ProxyRelay
